import Mathlib

/-!
Verification of the aggregation-and-filtering pipeline of the
University Rankings Analysis repository (`app.py` and
`university-rankings-analysis.py`), as a shallow embedding in Lean 4.

The dataset is a table of university records (rank, name, country, city),
held in a pandas DataFrame.  We model the DataFrame as its list of records
together with the list of derived columns that have been assigned to it
(`df['Ranking_Cluster'] = ...` adds such a column in place).  pandas
operations are embedded by their effect on this model:

* `Series.value_counts()` computes one `(key, count)` pair per distinct key
  (keys in first-occurrence order) and sorts the pairs by descending count;
  the sort is modelled as a stable insertion sort, so ties keep the
  first-occurrence order.  On a categorical column (the result of `pd.cut`)
  it returns a count for every category, with `NaN` entries dropped.
* `pd.cut(ranks, bins=[0, 100, 500, 1000, 5000, inf], labels=[...])` maps a
  rank to the label of the half-open interval `(lo, hi]` that contains it,
  and to `NaN` (modelled as `none`) when no interval does, i.e. for
  nonpositive ranks.
* `.round(2)` is rounding to two decimal places; `numpy` rounds half to
  even while Mathlib's `round` rounds half up, but every statement below
  only uses `|round2 q - q| ≤ 1/200`, which holds for both.  Real-number
  arithmetic is modelled with `ℚ`.
* `int(x)` on a float truncates toward zero and raises on `NaN`; the
  embedding returns `Option Int`, with `none` for the raising case.
* `pd.read_csv` fails when the file is missing and otherwise returns the
  parsed table; it performs no validation of which columns are present.
-/

namespace UniRank

/-- One row of the rankings table: global rank, university, country, city. -/
structure URec where
  globalRank : Int
  university : String
  country : String
  city : String
  deriving DecidableEq

/-- A pandas DataFrame holding university records: the records plus the
names of derived columns that have been assigned to the frame in place. -/
structure DataFrame where
  records : List URec
  extraCols : List String
  deriving DecidableEq

/-- The five excellence-cluster labels of `pd.cut(..., labels=['Elite (1-100)',
'Premier (101-500)', 'Distinguished (501-1000)', 'Notable (1001-5000)',
'Emerging (5000+)'])`. -/
inductive Bucket where
  | elite
  | premier
  | distinguished
  | notable
  | emerging
  deriving DecidableEq

/-- The category order of the `pd.cut` labels, i.e. the fixed band order. -/
def clusterLabels : List Bucket :=
  [Bucket.elite, Bucket.premier, Bucket.distinguished, Bucket.notable, Bucket.emerging]

/-- Embedding of `pd.cut(rank, bins=[0, 100, 500, 1000, 5000, float('inf')],
labels=[...])` applied to one rank: the label of the half-open interval
`(lo, hi]` containing the rank, `none` (pandas `NaN`) when the rank is
outside every bin, i.e. when it is not positive. -/
def assignExcellenceCluster (r : Int) : Option Bucket :=
  if 0 < r ∧ r ≤ 100 then some Bucket.elite
  else if 100 < r ∧ r ≤ 500 then some Bucket.premier
  else if 500 < r ∧ r ≤ 1000 then some Bucket.distinguished
  else if 1000 < r ∧ r ≤ 5000 then some Bucket.notable
  else if 5000 < r then some Bucket.emerging
  else none

/-- Descending-count order on `(key, count)` pairs, the order in which
`value_counts` returns its rows. -/
def countGE {α : Type} (a b : α × Nat) : Prop := b.2 ≤ a.2

instance {α : Type} : DecidableRel (@countGE α) :=
  fun a b => inferInstanceAs (Decidable (b.2 ≤ a.2))

instance {α : Type} : IsTotal (α × Nat) countGE :=
  ⟨fun a b => Nat.le_total b.2 a.2⟩

instance {α : Type} : IsTrans (α × Nat) countGE :=
  ⟨fun _ _ _ h1 h2 => Nat.le_trans h2 h1⟩

/-- The distinct values of a column in first-occurrence order, as produced
by `Series.unique()` and used as the keys of `value_counts`. -/
def uniqueKeys {α : Type} [DecidableEq α] (xs : List α) : List α :=
  xs.reverse.dedup.reverse

/-- Embedding of `Series.value_counts()`: one `(key, count)` pair per
distinct value, sorted by descending count with a stable sort. -/
def value_counts {α : Type} [DecidableEq α] (xs : List α) : List (α × Nat) :=
  List.insertionSort countGE ((uniqueKeys xs).map (fun k => (k, xs.count k)))

/-- Embedding of `.head(n)` on a count aggregate. -/
def topN {α : Type} (agg : List (α × Nat)) (n : Nat) : List (α × Nat) :=
  agg.take n

/-- Embedding of `create_top_countries_chart` (`app.py`): the data of the
bar chart is `df['Country'].value_counts().head(num_countries)`; the frame
is not modified. -/
def create_top_countries_chart (df : DataFrame) (numCountries : Nat) :
    List (String × Nat) × DataFrame :=
  (topN (value_counts (df.records.map (·.country))) numCountries, df)

/-- Embedding of `create_top_cities_chart` (`app.py`):
`df['City'].value_counts().head(num_cities)`; the frame is not modified. -/
def create_top_cities_chart (df : DataFrame) (numCities : Nat) :
    List (String × Nat) × DataFrame :=
  (topN (value_counts (df.records.map (·.city))) numCities, df)

/-- Embedding of `df['Ranking_Cluster'].value_counts()` on the categorical
column produced by `pd.cut`: one count per category (zero counts included),
`NaN` entries dropped, sorted by descending count. -/
def clusterValueCounts (recs : List URec) : List (Bucket × Nat) :=
  List.insertionSort countGE
    (clusterLabels.map (fun b =>
      (b, recs.countP (fun r => decide (assignExcellenceCluster r.globalRank = some b)))))

/-- Adding a derived column to a frame: `df[c] = ...` creates column `c`
if it is not already present. -/
def addCol (c : String) (cols : List String) : List String :=
  if c ∈ cols then cols else cols ++ [c]

/-- Embedding of `create_excellence_clusters` (`app.py`, and of
`analyze_excellence_clusters` in the report script): it assigns
`df['Ranking_Cluster'] = pd.cut(df['Global Rank'], ...)` — mutating the
input frame — and charts `df['Ranking_Cluster'].value_counts()`. -/
def create_excellence_clusters (df : DataFrame) :
    List (Bucket × Nat) × DataFrame :=
  (clusterValueCounts df.records,
   { records := df.records, extraCols := addCol "Ranking_Cluster" df.extraCols })

/-- Embedding of `create_ranking_distribution` (`app.py`): it hands the
`Global Rank` column to `px.histogram` and does not modify the frame. -/
def create_ranking_distribution (df : DataFrame) : List Int × DataFrame :=
  (df.records.map (·.globalRank), df)

/-- Embedding of the filter block of `main` (`app.py`): start from
`df.copy()`, restrict to the selected countries when the selection is
non-empty, then keep the rows whose rank lies in the inclusive range. -/
def filterTable (df : DataFrame) (selected : List String) (lo hi : Int) : DataFrame :=
  let base := if selected = [] then df.records
              else df.records.filter (fun r => selected.contains r.country)
  { records := base.filter (fun r => decide (lo ≤ r.globalRank) && decide (r.globalRank ≤ hi)),
    extraCols := df.extraCols }

/-- The four key metrics displayed by `main` (`app.py`). -/
structure SummaryMetrics where
  total : Nat
  countries : Nat
  cities : Nat
  avgRank : Option Int
  deriving DecidableEq

/-- Truncation toward zero, the behaviour of Python `int()` on a float. -/
def intTrunc (q : ℚ) : Int :=
  if 0 ≤ q then ⌊q⌋ else ⌈q⌉

/-- Embedding of `int(filtered_df['Global Rank'].mean())`: the arithmetic
mean truncated toward zero; `none` models the `ValueError` raised by
`int(nan)` when the column is empty. -/
def averageRank (rs : List Int) : Option Int :=
  if rs.isEmpty then none
  else some (intTrunc ((rs.sum : ℚ) / (rs.length : ℚ)))

/-- Embedding of the key-metrics block of `main` (`app.py`):
`len(df)`, `len(df['Country'].unique())`, `len(df['City'].unique())`,
`int(df['Global Rank'].mean())`; the frame is not modified. -/
def summaryMetrics (df : DataFrame) : SummaryMetrics × DataFrame :=
  (⟨df.records.length,
    (uniqueKeys (df.records.map (·.country))).length,
    (uniqueKeys (df.records.map (·.city))).length,
    averageRank (df.records.map (·.globalRank))⟩, df)

/-- Number of distinct countries in a frame, `len(df['Country'].unique())`. -/
def distinctCountryCount (df : DataFrame) : Nat :=
  (uniqueKeys (df.records.map (·.country))).length

/-- Rounding to two decimal places, `.round(2)`. -/
def round2 (q : ℚ) : ℚ :=
  ((round (q * 100) : Int) : ℚ) / 100

/-- One row of the concentration-index table of
`calculate_concentration_index`. -/
structure ConcRow where
  country : String
  universityCount : Nat
  shareOfTotal : ℚ
  cumulativeShare : ℚ
  deriving DecidableEq

/-- Share of the total, `(count / total_unis * 100).round(2)`. -/
def shareOf (total n : Nat) : ℚ :=
  round2 ((n : ℚ) / (total : ℚ) * 100)

/-- Builds the concentration rows from the descending `(country, count)`
list: per-country rounded share and the running (cumulative) sum of the
rounded shares, accumulated in `acc`. -/
def concRowsAux (total : Nat) : ℚ → List (String × Nat) → List ConcRow
  | _, [] => []
  | acc, p :: rest =>
    ⟨p.1, p.2, shareOf total p.2, acc + shareOf total p.2⟩ ::
      concRowsAux total (acc + shareOf total p.2) rest

/-- Embedding of `calculate_concentration_index` (report script):
`value_counts` by country, per-country rounded share of total, cumulative
sum of the rounded shares, and finally `.head(10)`; the frame is not
modified. -/
def calculate_concentration_index (df : DataFrame) : List ConcRow × DataFrame :=
  ((concRowsAux df.records.length 0
      (value_counts (df.records.map (·.country)))).take 10, df)

/-- Load failure of the data-loading step. -/
inductive DataLoadError where
  | fileNotFound
  deriving DecidableEq

/-- A CSV file: a header row naming the columns, and the data rows. -/
structure CSVFile where
  header : List String
  rows : List (List String)
  deriving DecidableEq

/-- Embedding of `pd.read_csv`: fails when the file is missing, otherwise
returns the parsed table; no check of which columns are present. -/
def read_csv : Option CSVFile → Except DataLoadError CSVFile
  | none => Except.error DataLoadError.fileNotFound
  | some f => Except.ok f

/-- Embedding of `load_data` (`app.py`): it just calls `pd.read_csv`. -/
def load_data (f : Option CSVFile) : Except DataLoadError CSVFile :=
  read_csv f

/-- Helper to build a record. -/
def mkRec (r : Int) (u c ci : String) : URec :=
  ⟨r, u, c, ci⟩

/-- The empty frame. -/
def dfEmpty : DataFrame := ⟨[], []⟩

/-- A one-record frame. -/
def dfOne : DataFrame := ⟨[mkRec 1 "u1" "A" "x"], []⟩

/-- A frame with two records of one country, ranks 1 and 2. -/
def dfTwo : DataFrame := ⟨[mkRec 1 "u1" "A" "x", mkRec 2 "u2" "A" "x"], []⟩

/-- A frame whose countries appear in the order C, A, B, one record each. -/
def dfCAB : DataFrame :=
  ⟨[mkRec 1 "u1" "C" "x", mkRec 2 "u2" "A" "y", mkRec 3 "u3" "B" "z"], []⟩

/-- A frame with one Elite record and two Premier records. -/
def dfClusters : DataFrame :=
  ⟨[mkRec 1 "u1" "A" "x", mkRec 101 "u2" "A" "x", mkRec 102 "u3" "A" "x"], []⟩

/-- A frame with six countries of one university each. -/
def dfSix : DataFrame :=
  ⟨[mkRec 1 "u1" "A" "x", mkRec 2 "u2" "B" "x", mkRec 3 "u3" "C" "x",
    mkRec 4 "u4" "D" "x", mkRec 5 "u5" "E" "x", mkRec 6 "u6" "F" "x"], []⟩

/-- A frame containing a record with rank 0 and a record with rank 1. -/
def dfZero : DataFrame := ⟨[mkRec 0 "u0" "A" "x", mkRec 1 "u1" "A" "x"], []⟩

/-- A CSV header that lacks the City column. -/
def csvNoCity : CSVFile := ⟨["Global Rank", "University", "Country"], []⟩

/-- C2: `assignExcellenceCluster` is total on positive ranks and assigns by
the fixed half-open upper-bound-inclusive bands: `(0,100]` Elite,
`(100,500]` Premier, `(500,1000]` Distinguished, `(1000,5000]` Notable,
`(5000,∞)` Emerging. -/
theorem excellence_cluster_bands (r : Int) (h : 0 < r) :
    (assignExcellenceCluster r).isSome = true ∧
    (r ≤ 100 → assignExcellenceCluster r = some Bucket.elite) ∧
    (100 < r → r ≤ 500 → assignExcellenceCluster r = some Bucket.premier) ∧
    (500 < r → r ≤ 1000 → assignExcellenceCluster r = some Bucket.distinguished) ∧
    (1000 < r → r ≤ 5000 → assignExcellenceCluster r = some Bucket.notable) ∧
    (5000 < r → assignExcellenceCluster r = some Bucket.emerging) := by
  unfold assignExcellenceCluster
  refine ⟨?_, ?_, ?_, ?_, ?_, ?_⟩ <;> intros <;> split_ifs <;> first | rfl | omega

/-- Witness for C2 at rank 100. -/
theorem excellence_cluster_bands_witness :
    assignExcellenceCluster 100 = some Bucket.elite :=
  (excellence_cluster_bands 100 (by norm_num)).2.1 (by norm_num)

/-- C6: filtering with no country restriction and a rank range `[1, maxR]`
that covers every (positive) rank in the table returns the table
unchanged, order preserved. -/
theorem filter_full_range_identity (df : DataFrame) (maxR : Int)
    (hpos : ∀ r ∈ df.records, 1 ≤ r.globalRank)
    (hmax : ∀ r ∈ df.records, r.globalRank ≤ maxR) :
    filterTable df [] 1 maxR = df := by
  obtain ⟨recs, cols⟩ := df
  simp only [filterTable, eq_self_iff_true, if_true]
  congr 1
  rw [List.filter_eq_self]
  intro r hr
  simp only [Bool.and_eq_true, decide_eq_true_eq]
  exact ⟨hpos r hr, hmax r hr⟩

/-- Witness for C6 on a concrete one-record table. -/
theorem filter_full_range_identity_witness :
    filterTable dfOne [] 1 10 = dfOne :=
  filter_full_range_identity dfOne 10 (by decide) (by decide)

/-- C7: an inverted rank range (`min > max`) yields an empty table, for any
table and country selection, and is not an error. -/
theorem filter_inverted_range_empty (df : DataFrame) (sel : List String)
    (lo hi : Int) (h : hi < lo) :
    (filterTable df sel lo hi).records = [] := by
  simp only [filterTable]
  rw [List.filter_eq_nil_iff]
  intro r _
  simp only [Bool.and_eq_true, decide_eq_true_eq, not_and]
  intro h1 h2
  omega

/-- Witness for C7 with the range `[1, 0]` of the spec example. -/
theorem filter_inverted_range_empty_witness :
    (filterTable dfOne ["X"] 1 0).records = [] :=
  filter_inverted_range_empty dfOne ["X"] 1 0 (by norm_num)

/-- C9 counterexample: loading a CSV whose header lacks the City column
succeeds — `load_data` is `pd.read_csv` with no column validation — so the
claim that it fails with `DataLoadError` is false. -/
theorem load_missing_city_cex :
    "City" ∉ csvNoCity.header ∧ load_data (some csvNoCity) = Except.ok csvNoCity :=
  ⟨by decide, rfl⟩

/-- C9 amended: `load(path)` produces the parsed table, or fails with
`DataLoadError` when the file is missing; it performs no required-column
validation, so a file missing the City column loads successfully and the
missing column only causes a failure later, when the column is accessed. -/
theorem load_no_column_validation (f : Option CSVFile) :
    (f = none → load_data f = Except.error DataLoadError.fileNotFound) ∧
    (∀ c : CSVFile, f = some c → load_data f = Except.ok c) := by
  constructor
  · rintro rfl
    rfl
  · rintro c rfl
    rfl

/-- Witness for the amended C9 on a missing file. -/
theorem load_no_column_validation_witness :
    load_data none = Except.error DataLoadError.fileNotFound :=
  (load_no_column_validation none).1 rfl

/-- C4 counterexample: on a table whose tied countries appear in the order
C, A, B, `value_counts` keeps the first-occurrence order for ties, so the
top-3 list is not sorted by ascending key among equal counts, refuting the
claimed lexicographic tie-break. -/
theorem top_countries_lex_cex :
    (create_top_countries_chart dfCAB 3).1 = [("C", 1), ("A", 1), ("B", 1)] ∧
    (create_top_countries_chart dfCAB 3).1 ≠ [("A", 1), ("B", 1), ("C", 1)] := by
  decide

/-- C4 amended: `topN(countByCountry(T), n)` is sorted descending by count
and has length `min(n, distinctCountryCount(T))` (the chart slider only
produces `n ≥ 5 ≥ 0`); ties are returned in the internal `value_counts`
order, which is not the ascending lexicographic key order. -/
theorem top_countries_sorted_length (df : DataFrame) (n : Nat) :
    ((create_top_countries_chart df n).1).Pairwise countGE ∧
    ((create_top_countries_chart df n).1).length = min n (distinctCountryCount df) := by
  constructor
  · exact List.Pairwise.sublist (List.take_sublist _ _)
      (List.sorted_insertionSort countGE _)
  · simp [create_top_countries_chart, topN, value_counts, distinctCountryCount,
      List.length_take, List.length_insertionSort]

/-- C5 counterexample: on a table with one Elite and two Premier records,
`df['Ranking_Cluster'].value_counts()` returns Premier first, because it
sorts by descending count; the claimed fixed band order (Elite first) is
refuted. -/
theorem cluster_counts_order_cex :
    (clusterValueCounts dfClusters.records).map Prod.fst =
      [Bucket.premier, Bucket.elite, Bucket.distinguished, Bucket.notable, Bucket.emerging] ∧
    (clusterValueCounts dfClusters.records).map Prod.fst ≠ clusterLabels := by
  decide

/-- C5 amended: `excellenceClusterCounts` returns one count per bucket
label — all five labels present, zero counts included — sorted descending
by count, not in the fixed band order. -/
theorem cluster_counts_sorted_allLabels (recs : List URec) :
    (clusterValueCounts recs).Pairwise countGE ∧
    ((clusterValueCounts recs).map Prod.fst).Perm clusterLabels := by
  constructor
  · exact List.sorted_insertionSort countGE _
  · refine ((List.perm_insertionSort countGE _).map Prod.fst).trans ?_
    rw [List.map_map]
    exact List.Perm.of_eq rfl

/-- Nonpositive ranks fall outside every `pd.cut` bin and get the `NaN`
label. -/
theorem assign_nonpos_none (z : Int) (hz : z ≤ 0) :
    assignExcellenceCluster z = none := by
  unfold assignExcellenceCluster
  split_ifs <;> first | rfl | omega

/-- Summing, over the five bucket labels, the indicator of an optional
label being that bucket gives 1 when a label is present and 0 for `NaN`. -/
theorem clusterIndicator_sum (o : Option Bucket) :
    (clusterLabels.map (fun b => if decide (o = some b) = true then 1 else 0)).sum =
      (if o.isSome = true then 1 else 0 : Nat) := by
  rcases o with _ | b
  · decide
  · rcases b <;> decide

/-- The cluster counts sum to the number of records whose rank received a
bucket label (`value_counts` drops `NaN`). -/
theorem cluster_counts_sum_eq (recs : List URec) :
    ((clusterValueCounts recs).map Prod.snd).sum =
      recs.countP (fun r => (assignExcellenceCluster r.globalRank).isSome) := by
  unfold clusterValueCounts
  rw [((List.perm_insertionSort countGE _).map Prod.snd).sum_eq]
  rw [List.map_map]
  show (clusterLabels.map (fun b =>
      recs.countP (fun r => decide (assignExcellenceCluster r.globalRank = some b)))).sum =
    recs.countP (fun r => (assignExcellenceCluster r.globalRank).isSome)
  induction recs with
  | nil => rfl
  | cons x l ih =>
    have hsplit : ∀ b : Bucket,
        List.countP (fun r => decide (assignExcellenceCluster r.globalRank = some b)) (x :: l) =
          List.countP (fun r => decide (assignExcellenceCluster r.globalRank = some b)) l +
            (if decide (assignExcellenceCluster x.globalRank = some b) = true then 1 else 0) :=
      fun b => List.countP_cons _ _ _
    rw [List.countP_cons]
    simp only [hsplit]
    rw [List.sum_map_add, ih, clusterIndicator_sum]

/-- C10: a record whose rank is not positive gets no bucket label (`NaN`)
and is silently dropped from the cluster counts, so the counts sum to
strictly less than the table size. -/
theorem nonpositive_rank_excluded (recs : List URec) (r : URec)
    (hr : r ∈ recs) (h0 : r.globalRank ≤ 0) :
    assignExcellenceCluster r.globalRank = none ∧
    ((clusterValueCounts recs).map Prod.snd).sum < recs.length := by
  have hnone := assign_nonpos_none r.globalRank h0
  refine ⟨hnone, ?_⟩
  rw [cluster_counts_sum_eq]
  refine Nat.lt_of_le_of_ne (List.countP_le_length _) ?_
  intro heq
  have hall := List.countP_eq_length.mp heq r hr
  rw [hnone] at hall
  simp at hall

/-- Witness for C10 on a table containing a rank-0 record. -/
theorem nonpositive_rank_excluded_witness :
    assignExcellenceCluster (mkRec 0 "u0" "A" "x").globalRank = none ∧
    ((clusterValueCounts dfZero.records).map Prod.snd).sum < dfZero.records.length :=
  nonpositive_rank_excluded dfZero.records (mkRec 0 "u0" "A" "x") (by decide) (by decide)

/-- C3 counterexample: `create_excellence_clusters` does not leave its
input table unchanged — it assigns the `Ranking_Cluster` column to the
input frame in place. -/
theorem excellence_clusters_mutation_cex :
    (create_excellence_clusters dfOne).2 ≠ dfOne := by
  decide

/-- C3 amended: the aggregations retain no state and leave the records of
the input table unchanged; the country/city counts, the histogram data,
the concentration index and the summary metrics leave the table entirely
unchanged, but the excellence-cluster computation mutates the input table
in place by adding the derived `Ranking_Cluster` column (the report
script's `analyze_ranking_distribution` likewise adds a `Rank_Bracket`
column). -/
theorem aggregation_frame_effects (df : DataFrame) (n : Nat) :
    (create_top_countries_chart df n).2 = df ∧
    (create_top_cities_chart df n).2 = df ∧
    (create_ranking_distribution df).2 = df ∧
    (calculate_concentration_index df).2 = df ∧
    (summaryMetrics df).2 = df ∧
    (create_excellence_clusters df).2.records = df.records ∧
    "Ranking_Cluster" ∈ (create_excellence_clusters df).2.extraCols := by
  refine ⟨rfl, rfl, rfl, rfl, rfl, rfl, ?_⟩
  simp only [create_excellence_clusters, addCol]
  split_ifs with h
  · exact h
  · simp

/-- C8 counterexample: on the empty table the code evaluates
`int(df['Global Rank'].mean())` = `int(nan)`, which raises — modelled as
`none` — instead of returning the claimed average of 0. -/
theorem summary_empty_avg_cex :
    (summaryMetrics dfEmpty).1.avgRank = none ∧
    (summaryMetrics dfEmpty).1.avgRank ≠ some 0 := by
  decide

/-- C8 amended: the counting aggregations are total on the empty table and
return zero counts and empty sequences; `averageRank` is the arithmetic
mean truncated toward zero (Python `int()`, not rounded to nearest) on
non-empty tables, and on the empty table the code raises (`int(nan)`)
rather than returning 0. -/
theorem aggregation_totality (df : DataFrame) :
    (df.records = [] →
      (summaryMetrics df).1 = ⟨0, 0, 0, none⟩ ∧
      (create_top_countries_chart df 10).1 = [] ∧
      (clusterValueCounts df.records).map Prod.snd = [0, 0, 0, 0, 0] ∧
      (calculate_concentration_index df).1 = []) ∧
    (df.records ≠ [] →
      (summaryMetrics df).1.avgRank =
        some (intTrunc ((((df.records.map (·.globalRank)).sum : Int) : ℚ) /
          ((df.records.map (·.globalRank)).length : ℚ)))) := by
  obtain ⟨recs, cols⟩ := df
  constructor
  · intro h
    replace h : recs = [] := h
    subst h
    exact ⟨rfl, rfl, rfl, rfl⟩
  · intro h
    cases recs with
    | nil => exact absurd rfl h
    | cons a l => rfl

/-- Witness for the amended C8: ranks 1 and 2 have mean 1.5, and the code
reports 1 (truncation), not 2. -/
theorem aggregation_totality_witness :
    (summaryMetrics dfTwo).1.avgRank = some 1 := by
  have h := (aggregation_totality dfTwo).2 (by decide)
  rw [h]
  have h2 : ((((dfTwo.records.map (·.globalRank)).sum : Int) : ℚ) /
      ((dfTwo.records.map (·.globalRank)).length : ℚ)) = 3 / 2 := by
    norm_num [dfTwo, mkRec]
  rw [h2]
  refine congrArg some ?_
  simp only [intTrunc, if_pos (by norm_num : (0:ℚ) ≤ 3 / 2)]
  rw [Int.floor_eq_iff]
  norm_num

/-- Rounding to two decimals maps nonnegative values to nonnegative values. -/
theorem round2_nonneg (q : ℚ) (h : 0 ≤ q) : 0 ≤ round2 q := by
  rw [round2]
  have h1 : (0 : Int) ≤ round (q * 100) := by
    rw [round_eq]
    rw [Int.le_floor]
    push_cast
    nlinarith
  have h2 : (0 : ℚ) ≤ ((round (q * 100) : Int) : ℚ) := by exact_mod_cast h1
  linarith

/-- Rounding to two decimals moves a value by at most half a cent. -/
theorem round2_err (q : ℚ) : |round2 q - q| ≤ 1 / 200 := by
  have h := abs_sub_round (q * 100)
  rw [round2]
  rw [show ((round (q * 100) : Int) : ℚ) / 100 - q =
    -((q * 100 - ((round (q * 100) : Int) : ℚ)) / 100) by ring]
  rw [abs_neg, abs_div, show |(100 : ℚ)| = 100 by norm_num]
  linarith

/-- A rounded share of a nonnegative count is nonnegative. -/
theorem shareOf_nonneg (total n : Nat) : 0 ≤ shareOf total n := by
  apply round2_nonneg
  positivity

/-- `concRowsAux` produces one row per input pair. -/
theorem concRowsAux_length (total : Nat) (l : List (String × Nat)) :
    ∀ acc : ℚ, (concRowsAux total acc l).length = l.length := by
  induction l with
  | nil => intro acc; rfl
  | cons p rest ih =>
    intro acc
    simp [concRowsAux, ih]

/-- The cumulative shares of `concRowsAux` are monotonically non-decreasing
and bounded below by the accumulator. -/
theorem concRowsAux_cum_mono (total : Nat) (l : List (String × Nat)) :
    ∀ acc : ℚ,
      (concRowsAux total acc l).Pairwise
        (fun a b => a.cumulativeShare ≤ b.cumulativeShare) ∧
      ∀ row ∈ concRowsAux total acc l, acc ≤ row.cumulativeShare := by
  induction l with
  | nil =>
    intro acc
    exact ⟨List.Pairwise.nil, fun row h => absurd h (List.not_mem_nil row)⟩
  | cons p rest ih =>
    intro acc
    obtain ⟨ih1, ih2⟩ := ih (acc + shareOf total p.2)
    have hs := shareOf_nonneg total p.2
    simp only [concRowsAux]
    constructor
    · refine List.Pairwise.cons ?_ ih1
      intro b hb
      exact ih2 b hb
    · intro row hrow
      rcases List.mem_cons.mp hrow with h | h
      · rw [h]
        show acc ≤ acc + shareOf total p.2
        linarith
      · have := ih2 row h
        linarith

/-- The last row of `concRowsAux` carries the accumulator plus the sum of
all rounded shares. -/
theorem concRowsAux_getLast (total : Nat) (l : List (String × Nat)) :
    ∀ acc : ℚ, l ≠ [] →
      ∃ row, (concRowsAux total acc l).getLast? = some row ∧
        row.cumulativeShare = acc + (l.map (fun p => shareOf total p.2)).sum := by
  induction l with
  | nil => intro acc h; exact absurd rfl h
  | cons p rest ih =>
    intro acc _
    cases rest with
    | nil =>
      refine ⟨⟨p.1, p.2, shareOf total p.2, acc + shareOf total p.2⟩, rfl, ?_⟩
      simp
    | cons q rest2 =>
      obtain ⟨row, h1, h2⟩ := ih (acc + shareOf total p.2) (by simp)
      refine ⟨row, ?_, ?_⟩
      · rw [show concRowsAux total acc (p :: q :: rest2) =
          ⟨p.1, p.2, shareOf total p.2, acc + shareOf total p.2⟩ ::
          ⟨q.1, q.2, shareOf total q.2, acc + shareOf total p.2 + shareOf total q.2⟩ ::
          concRowsAux total (acc + shareOf total p.2 + shareOf total q.2) rest2 from rfl]
        rw [List.getLast?_cons_cons]
        exact h1
      · rw [h2]
        simp only [List.map_cons, List.sum_cons]
        ring

/-- Summing each key's multiplicity over the distinct keys recovers the
length of the column. -/
theorem count_sum_uniqueKeys {α : Type} [DecidableEq α] (xs : List α) :
    ((uniqueKeys xs).map (fun k => xs.count k)).sum = xs.length := by
  rw [uniqueKeys, List.map_reverse, List.sum_reverse]
  rw [List.map_congr_left (fun k _ => (List.count_reverse k xs).symm)]
  rw [List.sum_map_count_dedup_eq_length, List.length_reverse]

/-- The counts returned by `value_counts` sum to the column length. -/
theorem value_counts_sum {α : Type} [DecidableEq α] (xs : List α) :
    ((value_counts xs).map Prod.snd).sum = xs.length := by
  rw [value_counts]
  rw [((List.perm_insertionSort countGE _).map Prod.snd).sum_eq, List.map_map]
  show ((uniqueKeys xs).map (fun k => xs.count k)).sum = xs.length
  exact count_sum_uniqueKeys xs

/-- `value_counts` has one row per distinct key. -/
theorem value_counts_length {α : Type} [DecidableEq α] (xs : List α) :
    (value_counts xs).length = (uniqueKeys xs).length := by
  rw [value_counts, List.length_insertionSort, List.length_map]

/-- A non-empty column has at least one distinct key. -/
theorem uniqueKeys_ne_nil {α : Type} [DecidableEq α] (xs : List α) (h : xs ≠ []) :
    uniqueKeys xs ≠ [] := by
  obtain ⟨a, ha⟩ := List.exists_mem_of_ne_nil xs h
  have hm : a ∈ uniqueKeys xs := by
    rw [uniqueKeys, List.mem_reverse, List.mem_dedup, List.mem_reverse]
    exact ha
  exact List.ne_nil_of_mem hm

/-- Triangle inequality for sums over a list. -/
theorem abs_sum_sub_sum_le {α : Type} (f g : α → ℚ) (l : List α) :
    |(l.map f).sum - (l.map g).sum| ≤ (l.map (fun x => |f x - g x|)).sum := by
  induction l with
  | nil => simp
  | cons a t ih =>
    simp only [List.map_cons, List.sum_cons]
    calc |f a + (t.map f).sum - (g a + (t.map g).sum)|
        = |(f a - g a) + ((t.map f).sum - (t.map g).sum)| := by
          rw [show f a + (t.map f).sum - (g a + (t.map g).sum) =
            (f a - g a) + ((t.map f).sum - (t.map g).sum) by ring]
      _ ≤ |f a - g a| + |(t.map f).sum - (t.map g).sum| := abs_add _ _
      _ ≤ |f a - g a| + (t.map (fun x => |f x - g x|)).sum := by linarith

/-- Pulling a constant factor and the cast out of a sum of counts. -/
theorem shares_cast_sum (l : List (String × Nat)) (w : ℚ) :
    (l.map (fun p => (p.2 : ℚ) * w)).sum = (((l.map Prod.snd).sum : Nat) : ℚ) * w := by
  induction l with
  | nil => simp
  | cons a t ih =>
    simp only [List.map_cons, List.sum_cons]
    rw [ih]
    push_cast
    ring

/-- The exact (unrounded) shares of the counts sum to 100 percent. -/
theorem true_shares_sum (l : List (String × Nat)) (T : Nat) (hT : 0 < T)
    (hsum : (l.map Prod.snd).sum = T) :
    (l.map (fun p => (p.2 : ℚ) / (T : ℚ) * 100)).sum = 100 := by
  have h1 : ∀ p : String × Nat, (p.2 : ℚ) / (T : ℚ) * 100 = (p.2 : ℚ) * (100 / (T : ℚ)) :=
    fun p => by ring
  simp only [h1]
  rw [shares_cast_sum, hsum]
  have hT0 : ((T : Nat) : ℚ) ≠ 0 := Nat.cast_ne_zero.mpr (Nat.pos_iff_ne_zero.mp hT)
  field_simp

/-- The rounding errors of the shares sum to at most half a cent per row. -/
theorem sum_abs_err_le (l : List (String × Nat)) (total : Nat) :
    (l.map (fun p => |shareOf total p.2 - (p.2 : ℚ) / (total : ℚ) * 100|)).sum ≤
      (l.length : ℚ) / 200 := by
  induction l with
  | nil => simp
  | cons a t ih =>
    simp only [List.map_cons, List.sum_cons, List.length_cons]
    have h : |shareOf total a.2 - (a.2 : ℚ) / (total : ℚ) * 100| ≤ 1 / 200 :=
      round2_err ((a.2 : ℚ) / (total : ℚ) * 100)
    push_cast
    linarith

/-- C1 amended: the cumulative shares of `concentrationIndex(T)` are
monotonically non-decreasing and the empty table yields the empty
sequence; the function returns only the first 10 rows (`.head(10)`), and
because the cumulative share is a sum of shares rounded to two decimals,
the last entry of a non-empty table with `k ≤ 10` distinct countries is
within `k * 0.005` of 100.0 — not within 0.01 once there are more than two
countries' worths of rounding error, and not near 100 at all when more
than 10 countries are truncated away. -/
theorem concentration_index_props (df : DataFrame) :
    ((calculate_concentration_index df).1).Pairwise
      (fun a b => a.cumulativeShare ≤ b.cumulativeShare) ∧
    (df.records = [] → (calculate_concentration_index df).1 = []) ∧
    (df.records ≠ [] → distinctCountryCount df ≤ 10 →
      ∃ row, ((calculate_concentration_index df).1).getLast? = some row ∧
        |row.cumulativeShare - 100| ≤ (distinctCountryCount df : ℚ) / 200) := by
  refine ⟨?_, ?_, ?_⟩
  · show ((concRowsAux df.records.length 0
      (value_counts (df.records.map (·.country)))).take 10).Pairwise _
    exact List.Pairwise.sublist (List.take_sublist _ _)
      ((concRowsAux_cum_mono df.records.length
        (value_counts (df.records.map (·.country))) 0).1)
  · intro h
    obtain ⟨recs, cols⟩ := df
    replace h : recs = [] := h
    subst h
    rfl
  · intro hne h10
    have hlen_l : (value_counts (df.records.map (·.country))).length =
        distinctCountryCount df := value_counts_length _
    have hrows_len : (concRowsAux df.records.length 0
        (value_counts (df.records.map (·.country)))).length = distinctCountryCount df := by
      rw [concRowsAux_length]
      exact hlen_l
    have htake : (calculate_concentration_index df).1 =
        concRowsAux df.records.length 0 (value_counts (df.records.map (·.country))) := by
      show (concRowsAux df.records.length 0
        (value_counts (df.records.map (·.country)))).take 10 = _
      apply List.take_of_length_le
      rw [hrows_len]
      exact h10
    have hvcne : value_counts (df.records.map (·.country)) ≠ [] := by
      intro hc
      have hlen0 := value_counts_length (df.records.map (·.country))
      rw [hc] at hlen0
      have hu := uniqueKeys_ne_nil (df.records.map (·.country))
        (fun hm => hne (List.map_eq_nil_iff.mp hm))
      exact hu (List.length_eq_zero.mp hlen0.symm)
    obtain ⟨row, hrow1, hrow2⟩ := concRowsAux_getLast df.records.length
      (value_counts (df.records.map (·.country))) 0 hvcne
    refine ⟨row, by rw [htake]; exact hrow1, ?_⟩
    rw [hrow2, zero_add]
    have hT : 0 < df.records.length := List.length_pos.mpr hne
    have hsum : ((value_counts (df.records.map (·.country))).map Prod.snd).sum =
        df.records.length := by
      rw [value_counts_sum, List.length_map]
    have htrue := true_shares_sum (value_counts (df.records.map (·.country)))
      df.records.length hT hsum
    have habs := abs_sum_sub_sum_le (fun p => shareOf df.records.length p.2)
      (fun p => (p.2 : ℚ) / (df.records.length : ℚ) * 100)
      (value_counts (df.records.map (·.country)))
    have herr := sum_abs_err_le (value_counts (df.records.map (·.country)))
      df.records.length
    rw [htrue] at habs
    have hfin : ((value_counts (df.records.map (·.country))).length : ℚ) =
        (distinctCountryCount df : ℚ) := by exact_mod_cast hlen_l
    rw [hfin] at herr
    linarith

/-- The rounded share of one country among six equal countries. -/
theorem share_six_one : shareOf 6 1 = 1667 / 100 := by
  have hfloor : ⌊(1 : ℚ) / 6 * 100 * 100 + 1 / 2⌋ = 1667 := by
    rw [Int.floor_eq_iff]
    norm_num
  rw [shareOf, round2, round_eq]
  norm_num [hfloor]

/-- C1 counterexample: a table of six countries with one university each
has every share rounded up to 16.67, so the final cumulative share is
100.02, which is not within 0.01 of 100.0; the claimed tolerance is
refuted. -/
theorem concentration_tolerance_cex :
    ∃ row, ((calculate_concentration_index dfSix).1).getLast? = some row ∧
      (1 : ℚ) / 100 < |row.cumulativeShare - 100| := by
  refine ⟨⟨"F", 1, shareOf 6 1, 0 + shareOf 6 1 + shareOf 6 1 + shareOf 6 1 +
    shareOf 6 1 + shareOf 6 1 + shareOf 6 1⟩, rfl, ?_⟩
  show (1 : ℚ) / 100 < |0 + shareOf 6 1 + shareOf 6 1 + shareOf 6 1 +
    shareOf 6 1 + shareOf 6 1 + shareOf 6 1 - 100|
  rw [share_six_one]
  rw [show (0 : ℚ) + 1667 / 100 + 1667 / 100 + 1667 / 100 + 1667 / 100 + 1667 / 100 +
    1667 / 100 - 100 = 1 / 50 by norm_num]
  rw [abs_of_pos (by norm_num : (0 : ℚ) < 1 / 50)]
  norm_num

/-- Witness for the amended C1 on a one-country table. -/
theorem concentration_index_props_witness :
    ∃ row, ((calculate_concentration_index dfTwo).1).getLast? = some row ∧
      |row.cumulativeShare - 100| ≤ (distinctCountryCount dfTwo : ℚ) / 200 :=
  (concentration_index_props dfTwo).2.2 (by decide) (by decide)

end UniRank
